import Mathlib

/-!
Verification of the core logic of the mind-universe repository:
the rule-based journal tagger (src/analyzer.py, analyze_journal) and the
PCM-to-WAV container encoder described in the specification.

The tagger is embedded as a pure function of the input text and of the
externally computed compound sentiment score (a rational standing in for
the float the sentiment collaborator returns); the code only compares it
against -0.5, embedded as -1/2. Python substring membership (pat in s) is
embedded as a boolean contiguous-occurrence test on the character lists,
and Python list membership (x in l) as List.contains.
-/

namespace MindUniverse

/-- Python substring test: does the character list pat occur contiguously
inside s (empty pat occurs in every s)? -/
def subSeq (pat : List Char) : List Char → Bool
  | [] => pat.isEmpty
  | c :: rest => pat.isPrefixOf (c :: rest) || subSeq pat rest

/-- Python string containment, pat in s. -/
def strIn (pat s : String) : Bool := subSeq pat.data s.data

/-- Python str.lower, embedded characterwise (the texts and keywords involved
are ASCII, where the two notions of lowercasing agree). -/
def lowerStr (s : String) : String := String.mk (s.data.map Char.toLower)

/-- Result record of analyze_journal: the five tag containers plus the six
suggestion strings. The score field of the Python dict is the external
sentiment collaborator output passed through unchanged, so it is not
modelled as a separate field here. -/
structure AnalysisResult where
  flags : List String
  archetypes : List String
  maslow_needs : List String
  strengths : List String
  distortions : List String
  suggestions : List String
deriving DecidableEq

/-- Embedding of analyze_journal from src/analyzer.py. The compound
sentiment score is the external parameter compound; all five rule
conditions are evaluated unconditionally, appending to the containers in
source order. The suggestion templates interpolate the first element of a
container guarded by an emptiness test (Python: xs[0] if xs else fb,
embedded as List.headD), and the Jungian template tests Python list
membership of the exact string Shadow in archetypes. -/
def analyze_journal (text : String) (compound : ℚ) : AnalysisResult :=
  let lowered := lowerStr text
  let flags :=
    (if compound < -1/2 then ["helplessness"] else []) ++
    (if strIn "voices" lowered then ["hallucination"] else [])
  let archetypes :=
    if strIn "voices" lowered then ["Shadow: symbolic expression"] else []
  let maslow_needs :=
    (if compound < -1/2 then ["Esteem: low confidence"] else []) ++
    (if strIn "voices" lowered then ["Safety: need for stability"] else []) ++
    (if strIn "lonely" lowered then ["Love/Belonging: need for connection"] else [])
  let strengths :=
    if strIn "try" lowered then ["Hope: effort detected"] else []
  let distortions :=
    (if compound < -1/2 then ["All-or-nothing thinking"] else []) ++
    (if strIn "worthless" lowered then ["Catastrophizing"] else [])
  ⟨flags, archetypes, maslow_needs, strengths, distortions,
    [ "Freudian: Reflect on " ++ distortions.headD "triggers" ++ "—journal unconscious thoughts.",
      "Adlerian: Build social interest—connect with one person.",
      "Jungian: Visualize " ++ (if archetypes.contains "Shadow" then "Shadow dialogue" else "Hero self") ++ " for empowerment.",
      "Maslow: Address " ++ maslow_needs.headD "basic needs" ++ "—try a routine.",
      "Positive Psychology: Practice gratitude—list 3 things you\x27re thankful for.",
      "CBT: Challenge " ++ distortions.headD "negative thoughts" ++ "—list 3 counter-evidences." ]⟩

/-- Python guarded first-element access, xs[0] if xs else fb, with the list
indexing exposed as the fallible operation it is in the source. -/
def pickFirst (l : List String) (fb : String) : Option String :=
  if l.isEmpty then some fb else l[0]?

/-- Variant of the tagger in which every first-element access of the
suggestion templates goes through the fallible indexing operation, so that
totality of the source (no exception path) is the statement that this
computation never returns none. -/
def analyzeOpt (text : String) (compound : ℚ) : Option AnalysisResult :=
  let lowered := lowerStr text
  let flags :=
    (if compound < -1/2 then ["helplessness"] else []) ++
    (if strIn "voices" lowered then ["hallucination"] else [])
  let archetypes :=
    if strIn "voices" lowered then ["Shadow: symbolic expression"] else []
  let maslow_needs :=
    (if compound < -1/2 then ["Esteem: low confidence"] else []) ++
    (if strIn "voices" lowered then ["Safety: need for stability"] else []) ++
    (if strIn "lonely" lowered then ["Love/Belonging: need for connection"] else [])
  let strengths :=
    if strIn "try" lowered then ["Hope: effort detected"] else []
  let distortions :=
    (if compound < -1/2 then ["All-or-nothing thinking"] else []) ++
    (if strIn "worthless" lowered then ["Catastrophizing"] else [])
  do
    let freud ← pickFirst distortions "triggers"
    let mas ← pickFirst maslow_needs "basic needs"
    let cbt ← pickFirst distortions "negative thoughts"
    some ⟨flags, archetypes, maslow_needs, strengths, distortions,
      [ "Freudian: Reflect on " ++ freud ++ "—journal unconscious thoughts.",
        "Adlerian: Build social interest—connect with one person.",
        "Jungian: Visualize " ++ (if archetypes.contains "Shadow" then "Shadow dialogue" else "Hero self") ++ " for empowerment.",
        "Maslow: Address " ++ mas ++ "—try a routine.",
        "Positive Psychology: Practice gratitude—list 3 things you\x27re thankful for.",
        "CBT: Challenge " ++ cbt ++ "—list 3 counter-evidences." ]⟩

/-- The keyword triggers scanned for by analyze_journal. -/
def triggerKeywords : List String := ["voices", "lonely", "try", "worthless"]

/-- Modelled from the spec: little-endian unsigned encoding of n on w bytes,
as used by the WAV header fields (the encoder itself is code of this
repository that is not under src; only the spec describes it). -/
def uintLE (w n : Nat) : List Nat := (List.range w).map (fun i => n / 256 ^ i % 256)

/-- Modelled from the spec: the ASCII bytes of a literal header tag. -/
def asciiBytes (s : String) : List Nat := s.data.map Char.toNat

/-- Modelled from the spec: the PCM-to-WAV container encoder of section 4.1,
steps 1 to 14, emitting the 44-byte RIFF/WAVE header followed by the PCM
payload verbatim. The encoder is code of this repository that is not under
src, so it is embedded from the byte-exact algorithm of the spec. -/
def encode (pcmData : List Nat) (sampleRate channels bitsPerSample : Nat) : List Nat :=
  asciiBytes "RIFF" ++ uintLE 4 (36 + pcmData.length) ++ asciiBytes "WAVE" ++
  asciiBytes "fmt " ++ uintLE 4 16 ++ uintLE 2 1 ++ uintLE 2 channels ++
  uintLE 4 sampleRate ++ uintLE 4 (sampleRate * channels * (bitsPerSample / 8)) ++
  uintLE 2 (channels * (bitsPerSample / 8)) ++ uintLE 2 bitsPerSample ++
  asciiBytes "data" ++ uintLE 4 pcmData.length ++ pcmData

lemma mem_ite_singleton {x a : String} {p : Prop} [Decidable p] :
    x ∈ (if p then [a] else ([] : List String)) ↔ x = a ∧ p := by
  by_cases h : p <;> simp [h]

lemma mem_flags_iff (t : String) (c : ℚ) (x : String) :
    x ∈ (analyze_journal t c).flags ↔
      (x = "helplessness" ∧ c < -1/2) ∨
      (x = "hallucination" ∧ strIn "voices" (lowerStr t) = true) := by
  simp only [analyze_journal, List.mem_append, mem_ite_singleton]

lemma mem_archetypes_iff (t : String) (c : ℚ) (x : String) :
    x ∈ (analyze_journal t c).archetypes ↔
      x = "Shadow: symbolic expression" ∧ strIn "voices" (lowerStr t) = true := by
  simp only [analyze_journal, mem_ite_singleton]

lemma mem_maslow_iff (t : String) (c : ℚ) (x : String) :
    x ∈ (analyze_journal t c).maslow_needs ↔
      (x = "Esteem: low confidence" ∧ c < -1/2) ∨
      (x = "Safety: need for stability" ∧ strIn "voices" (lowerStr t) = true) ∨
      (x = "Love/Belonging: need for connection" ∧ strIn "lonely" (lowerStr t) = true) := by
  simp only [analyze_journal, List.mem_append, mem_ite_singleton, or_assoc]

lemma mem_strengths_iff (t : String) (c : ℚ) (x : String) :
    x ∈ (analyze_journal t c).strengths ↔
      x = "Hope: effort detected" ∧ strIn "try" (lowerStr t) = true := by
  simp only [analyze_journal, mem_ite_singleton]

lemma mem_distortions_iff (t : String) (c : ℚ) (x : String) :
    x ∈ (analyze_journal t c).distortions ↔
      (x = "All-or-nothing thinking" ∧ c < -1/2) ∨
      (x = "Catastrophizing" ∧ strIn "worthless" (lowerStr t) = true) := by
  simp only [analyze_journal, List.mem_append, mem_ite_singleton]

lemma pickFirst_eq_headD (l : List String) (fb : String) :
    pickFirst l fb = some (l.headD fb) := by
  cases l <;> simp [pickFirst]

lemma headD_eq_head {α : Type} (l : List α) (d : α) (h : l ≠ []) :
    l.headD d = l.head h := by
  cases l with
  | nil => exact absurd rfl h
  | cons a as => rfl

lemma suggestion_zero_eq (t : String) (c : ℚ) :
    (analyze_journal t c).suggestions[0]? =
      some ("Freudian: Reflect on " ++ (analyze_journal t c).distortions.headD "triggers" ++
        "—journal unconscious thoughts.") := rfl

lemma suggestion_five_eq (t : String) (c : ℚ) :
    (analyze_journal t c).suggestions[5]? =
      some ("CBT: Challenge " ++ (analyze_journal t c).distortions.headD "negative thoughts" ++
        "—list 3 counter-evidences.") := rfl

lemma uintLE_length (w n : Nat) : (uintLE w n).length = w := by
  simp [uintLE]

lemma asciiBytes_RIFF : asciiBytes "RIFF" = [82, 73, 70, 70] := rfl

lemma asciiBytes_WAVE : asciiBytes "WAVE" = [87, 65, 86, 69] := rfl

lemma asciiBytes_fmt : asciiBytes "fmt " = [102, 109, 116, 32] := rfl

lemma asciiBytes_data : asciiBytes "data" = [100, 97, 116, 97] := rfl

/-- Claim C1: the spec says the Jungian suggestion interpolates Shadow
dialogue whenever a Shadow-prefixed archetype is present. The code instead
tests Python list membership of the exact string Shadow in the archetypes
list, whose only possible element is the longer string Shadow: symbolic
expression, so the test is never true: the Jungian suggestion is the Hero
self string for every input, even when the Shadow archetype is present, as
the concrete voices input shows. -/
theorem jungian_always_hero_self :
    (∀ (t : String) (c : ℚ),
      (analyze_journal t c).suggestions[2]? = some "Jungian: Visualize Hero self for empowerment.") ∧
    (analyze_journal "I hear voices" 0).archetypes = ["Shadow: symbolic expression"] := by
  constructor
  · intro t c
    simp only [analyze_journal]
    by_cases hv : strIn "voices" (lowerStr t) = true
    · simp only [if_pos hv]
      rfl
    · simp only [if_neg hv]
      rfl
  · have hv : strIn "voices" (lowerStr "I hear voices") = true := by decide
    simp only [analyze_journal, if_pos hv]

/-- Claim C2: the five tagger rules are independent and unconditional on
the lowercased text: each tag is present in its container exactly when its
own condition holds, regardless of the other rules, so multiple rules may
fire on the same input and none suppresses another. -/
theorem tagger_rules_independent (t : String) (c : ℚ) :
    ("helplessness" ∈ (analyze_journal t c).flags ↔ c < -1/2) ∧
    ("Esteem: low confidence" ∈ (analyze_journal t c).maslow_needs ↔ c < -1/2) ∧
    ("All-or-nothing thinking" ∈ (analyze_journal t c).distortions ↔ c < -1/2) ∧
    ("hallucination" ∈ (analyze_journal t c).flags ↔ strIn "voices" (lowerStr t) = true) ∧
    ("Safety: need for stability" ∈ (analyze_journal t c).maslow_needs ↔ strIn "voices" (lowerStr t) = true) ∧
    ("Shadow: symbolic expression" ∈ (analyze_journal t c).archetypes ↔ strIn "voices" (lowerStr t) = true) ∧
    ("Love/Belonging: need for connection" ∈ (analyze_journal t c).maslow_needs ↔ strIn "lonely" (lowerStr t) = true) ∧
    ("Hope: effort detected" ∈ (analyze_journal t c).strengths ↔ strIn "try" (lowerStr t) = true) ∧
    ("Catastrophizing" ∈ (analyze_journal t c).distortions ↔ strIn "worthless" (lowerStr t) = true) := by
  simp [mem_flags_iff, mem_maslow_iff, mem_archetypes_iff, mem_strengths_iff, mem_distortions_iff]

/-- Claim C3: for every input, including the empty string, the result has
exactly 6 suggestions, in the fixed mentor order Freudian, Adlerian,
Jungian, Maslow, Positive Psychology, CBT. -/
theorem suggestions_count_order (t : String) (c : ℚ) :
    (analyze_journal t c).suggestions.length = 6 ∧
    (∃ x, (analyze_journal t c).suggestions[0]? = some ("Freudian: Reflect on " ++ x ++ "—journal unconscious thoughts.")) ∧
    (analyze_journal t c).suggestions[1]? = some "Adlerian: Build social interest—connect with one person." ∧
    (∃ x, (analyze_journal t c).suggestions[2]? = some ("Jungian: Visualize " ++ x ++ " for empowerment.")) ∧
    (∃ x, (analyze_journal t c).suggestions[3]? = some ("Maslow: Address " ++ x ++ "—try a routine.")) ∧
    (analyze_journal t c).suggestions[4]? = some "Positive Psychology: Practice gratitude—list 3 things you\x27re thankful for." ∧
    (∃ x, (analyze_journal t c).suggestions[5]? = some ("CBT: Challenge " ++ x ++ "—list 3 counter-evidences.")) :=
  ⟨rfl, ⟨_, rfl⟩, rfl, ⟨_, rfl⟩, ⟨_, rfl⟩, rfl, ⟨_, rfl⟩⟩

set_option maxHeartbeats 2000000 in
/-- Claim C4: for every PCM buffer (the empty one included) and sample
rate, the encoder at channels 1 and 16 bits per sample returns exactly
44 plus the payload length bytes: the RIFF magic, the ChunkSize field
equal to 36 plus the payload length in 4-byte little-endian at offset 4,
the WAVE magic at offset 8, and the payload verbatim after the 44-byte
header; the empty payload gives a 44-byte header-only output, and the
encoder is total so no error is ever raised. -/
theorem encode_length_and_header (pcm : List Nat) (sr : Nat) :
    (encode pcm sr 1 16).length = 44 + pcm.length ∧
    (encode pcm sr 1 16).take 4 = asciiBytes "RIFF" ∧
    ((encode pcm sr 1 16).drop 4).take 4 = uintLE 4 (36 + pcm.length) ∧
    ((encode pcm sr 1 16).drop 8).take 4 = asciiBytes "WAVE" ∧
    (encode pcm sr 1 16).drop 44 = pcm ∧
    (encode [] sr 1 16).length = 44 := by
  refine ⟨?_, rfl, rfl, rfl, rfl, rfl⟩
  simp [encode, asciiBytes_RIFF, asciiBytes_WAVE, asciiBytes_fmt, asciiBytes_data,
    uintLE_length, List.length_append]
  omega

/-- Claim C5: on the lonely-worthless-try scenario text with external
compound sentiment -0.7, the flags are exactly helplessness, the Maslow
needs include Esteem and Love/Belonging, the distortions include
All-or-nothing thinking and Catastrophizing, the strengths are exactly
Hope, there are 6 suggestions, and the Freudian one mentions
All-or-nothing thinking. -/
theorem scenario_lonely_worthless :
    (analyze_journal "I feel so lonely and worthless, nothing works no matter how hard I try" (-7/10)).flags = ["helplessness"] ∧
    "Esteem: low confidence" ∈ (analyze_journal "I feel so lonely and worthless, nothing works no matter how hard I try" (-7/10)).maslow_needs ∧
    "Love/Belonging: need for connection" ∈ (analyze_journal "I feel so lonely and worthless, nothing works no matter how hard I try" (-7/10)).maslow_needs ∧
    "All-or-nothing thinking" ∈ (analyze_journal "I feel so lonely and worthless, nothing works no matter how hard I try" (-7/10)).distortions ∧
    "Catastrophizing" ∈ (analyze_journal "I feel so lonely and worthless, nothing works no matter how hard I try" (-7/10)).distortions ∧
    (analyze_journal "I feel so lonely and worthless, nothing works no matter how hard I try" (-7/10)).strengths = ["Hope: effort detected"] ∧
    (analyze_journal "I feel so lonely and worthless, nothing works no matter how hard I try" (-7/10)).suggestions.length = 6 ∧
    (∃ s0, (analyze_journal "I feel so lonely and worthless, nothing works no matter how hard I try" (-7/10)).suggestions[0]? = some s0 ∧
      strIn "All-or-nothing thinking" s0 = true) := by
  have hc : ((-7/10 : ℚ) < -1/2) := by norm_num
  have hv : ¬ (strIn "voices" (lowerStr "I feel so lonely and worthless, nothing works no matter how hard I try") = true) := by decide
  have hl : strIn "lonely" (lowerStr "I feel so lonely and worthless, nothing works no matter how hard I try") = true := by decide
  have ht : strIn "try" (lowerStr "I feel so lonely and worthless, nothing works no matter how hard I try") = true := by decide
  have hw : strIn "worthless" (lowerStr "I feel so lonely and worthless, nothing works no matter how hard I try") = true := by decide
  simp only [analyze_journal, if_pos hc, if_neg hv, if_pos hl, if_pos ht, if_pos hw]
  refine ⟨?_, ?_, ?_, ?_, ?_, ?_, ?_, ⟨_, rfl, ?_⟩⟩ <;> decide

/-- Claim C6: on the calm uneventful scenario text with external compound
sentiment 0.1, all five containers are empty, and the Freudian and Jungian
suggestions are the exact fallback strings. -/
theorem scenario_calm_day :
    (analyze_journal "Today was a calm, uneventful day." (1/10)).flags = [] ∧
    (analyze_journal "Today was a calm, uneventful day." (1/10)).archetypes = [] ∧
    (analyze_journal "Today was a calm, uneventful day." (1/10)).maslow_needs = [] ∧
    (analyze_journal "Today was a calm, uneventful day." (1/10)).strengths = [] ∧
    (analyze_journal "Today was a calm, uneventful day." (1/10)).distortions = [] ∧
    (analyze_journal "Today was a calm, uneventful day." (1/10)).suggestions[0]? =
      some "Freudian: Reflect on triggers—journal unconscious thoughts." ∧
    (analyze_journal "Today was a calm, uneventful day." (1/10)).suggestions[2]? =
      some "Jungian: Visualize Hero self for empowerment." := by
  have hc : ¬ ((1/10 : ℚ) < -1/2) := by norm_num
  have hv : ¬ (strIn "voices" (lowerStr "Today was a calm, uneventful day.") = true) := by decide
  have hl : ¬ (strIn "lonely" (lowerStr "Today was a calm, uneventful day.") = true) := by decide
  have ht : ¬ (strIn "try" (lowerStr "Today was a calm, uneventful day.") = true) := by decide
  have hw : ¬ (strIn "worthless" (lowerStr "Today was a calm, uneventful day.") = true) := by decide
  simp only [analyze_journal, if_neg hc, if_neg hv, if_neg hl, if_neg ht, if_neg hw]
  decide

/-- Claim C7: with the same compound score, if the trigger keywords of t1
are a strict subset of those of t2, then every tag of every container of
the analysis of t1 also appears in the corresponding container for t2:
adding trigger keywords never removes a tag. -/
theorem tagger_monotone (t1 t2 : String) (c : ℚ)
    (hsub : ∀ k ∈ triggerKeywords, strIn k (lowerStr t1) = true → strIn k (lowerStr t2) = true)
    (hstrict : ∃ k ∈ triggerKeywords, strIn k (lowerStr t2) = true ∧ strIn k (lowerStr t1) = false) :
    (∀ x ∈ (analyze_journal t1 c).flags, x ∈ (analyze_journal t2 c).flags) ∧
    (∀ x ∈ (analyze_journal t1 c).archetypes, x ∈ (analyze_journal t2 c).archetypes) ∧
    (∀ x ∈ (analyze_journal t1 c).maslow_needs, x ∈ (analyze_journal t2 c).maslow_needs) ∧
    (∀ x ∈ (analyze_journal t1 c).strengths, x ∈ (analyze_journal t2 c).strengths) ∧
    (∀ x ∈ (analyze_journal t1 c).distortions, x ∈ (analyze_journal t2 c).distortions) := by
  have hv := hsub "voices" (by decide)
  have hl := hsub "lonely" (by decide)
  have ht := hsub "try" (by decide)
  have hw := hsub "worthless" (by decide)
  refine ⟨?_, ?_, ?_, ?_, ?_⟩ <;> intro x hx
  · rcases (mem_flags_iff t1 c x).1 hx with h | h
    · exact (mem_flags_iff t2 c x).2 (Or.inl h)
    · exact (mem_flags_iff t2 c x).2 (Or.inr ⟨h.1, hv h.2⟩)
  · rcases (mem_archetypes_iff t1 c x).1 hx with ⟨h1, h2⟩
    exact (mem_archetypes_iff t2 c x).2 ⟨h1, hv h2⟩
  · rcases (mem_maslow_iff t1 c x).1 hx with h | h | h
    · exact (mem_maslow_iff t2 c x).2 (Or.inl h)
    · exact (mem_maslow_iff t2 c x).2 (Or.inr (Or.inl ⟨h.1, hv h.2⟩))
    · exact (mem_maslow_iff t2 c x).2 (Or.inr (Or.inr ⟨h.1, hl h.2⟩))
  · rcases (mem_strengths_iff t1 c x).1 hx with ⟨h1, h2⟩
    exact (mem_strengths_iff t2 c x).2 ⟨h1, ht h2⟩
  · rcases (mem_distortions_iff t1 c x).1 hx with h | h
    · exact (mem_distortions_iff t2 c x).2 (Or.inl h)
    · exact (mem_distortions_iff t2 c x).2 (Or.inr ⟨h.1, hw h.2⟩)

/-- Witness for the monotonicity theorem: the keywords of the text
worthless are a strict subset of those of worthless and lonely, and the
Catastrophizing distortion of the smaller text carries over. -/
theorem tagger_monotone_witness :
    "Catastrophizing" ∈ (analyze_journal "worthless and lonely" 0).distortions := by
  have h := tagger_monotone "worthless" "worthless and lonely" 0 (by decide) (by decide)
  exact h.2.2.2.2 "Catastrophizing"
    ((mem_distortions_iff "worthless" 0 "Catastrophizing").2 (Or.inr ⟨rfl, by decide⟩))

/-- Claim C8: the tagger is total: the variant in which the first-element
accesses of the suggestion templates are fallible always returns some
result, namely the result of analyze_journal, because each access is
guarded by a non-emptiness test with a fixed fallback string. -/
theorem analyze_total (t : String) (c : ℚ) :
    analyzeOpt t c = some (analyze_journal t c) := by
  simp [analyzeOpt, analyze_journal, pickFirst_eq_headD]

/-- Claim C9: the flags container is exactly characterized: helplessness
is present exactly when the compound score is below -0.5, hallucination
exactly when the lowercased text contains voices, and nothing else is
ever present. -/
theorem flags_exact (t : String) (c : ℚ) :
    ("helplessness" ∈ (analyze_journal t c).flags ↔ c < -1/2) ∧
    ("hallucination" ∈ (analyze_journal t c).flags ↔ strIn "voices" (lowerStr t) = true) ∧
    (∀ x ∈ (analyze_journal t c).flags, x = "helplessness" ∨ x = "hallucination") := by
  refine ⟨by simp [mem_flags_iff], by simp [mem_flags_iff], ?_⟩
  intro x hx
  rcases (mem_flags_iff t c x).1 hx with h | h
  · exact Or.inl h.1
  · exact Or.inr h.1

/-- Witness for the flags characterization at the concrete voices input:
hallucination is flagged and is one of the two permitted flag strings. -/
theorem flags_exact_witness :
    "hallucination" ∈ (analyze_journal "voices" 0).flags ∧
    ("hallucination" = "helplessness" ∨ "hallucination" = "hallucination") := by
  have h := flags_exact "voices" 0
  have hm : "hallucination" ∈ (analyze_journal "voices" 0).flags := h.2.1.mpr (by decide)
  exact ⟨hm, h.2.2 "hallucination" hm⟩

/-- Claim C10: when the distortions container is non-empty the Freudian
and CBT suggestions interpolate the same string, the first distortion in
insertion order; when it is empty their fallbacks differ, triggers versus
negative thoughts. -/
theorem freud_cbt_same_distortion (t : String) (c : ℚ) :
    ((analyze_journal t c).distortions = [] →
      (analyze_journal t c).suggestions[0]? =
        some ("Freudian: Reflect on " ++ "triggers" ++ "—journal unconscious thoughts.") ∧
      (analyze_journal t c).suggestions[5]? =
        some ("CBT: Challenge " ++ "negative thoughts" ++ "—list 3 counter-evidences.")) ∧
    (∀ h : (analyze_journal t c).distortions ≠ [],
      (analyze_journal t c).suggestions[0]? =
        some ("Freudian: Reflect on " ++ (analyze_journal t c).distortions.head h ++ "—journal unconscious thoughts.") ∧
      (analyze_journal t c).suggestions[5]? =
        some ("CBT: Challenge " ++ (analyze_journal t c).distortions.head h ++ "—list 3 counter-evidences.")) ∧
    "triggers" ≠ "negative thoughts" := by
  refine ⟨?_, ?_, by decide⟩
  · intro h0
    constructor
    · rw [suggestion_zero_eq, h0]
      rfl
    · rw [suggestion_five_eq, h0]
      rfl
  · intro h
    constructor
    · rw [suggestion_zero_eq, headD_eq_head _ _ h]
    · rw [suggestion_five_eq, headD_eq_head _ _ h]

/-- Witness for the shared-interpolation theorem at the concrete worthless
input, whose only distortion is Catastrophizing: both the Freudian and the
CBT suggestions interpolate it. -/
theorem freud_cbt_same_distortion_witness :
    (analyze_journal "worthless" 0).suggestions[0]? =
      some ("Freudian: Reflect on " ++ "Catastrophizing" ++ "—journal unconscious thoughts.") ∧
    (analyze_journal "worthless" 0).suggestions[5]? =
      some ("CBT: Challenge " ++ "Catastrophizing" ++ "—list 3 counter-evidences.") := by
  have hc : ¬ ((0 : ℚ) < -1/2) := by norm_num
  have hw : strIn "worthless" (lowerStr "worthless") = true := by decide
  have hd : (analyze_journal "worthless" 0).distortions = ["Catastrophizing"] := by
    simp only [analyze_journal, if_neg hc, if_pos hw]
    decide
  have hne : (analyze_journal "worthless" 0).distortions ≠ [] := by
    rw [hd]
    decide
  have h := (freud_cbt_same_distortion "worthless" 0).2.1 hne
  simp only [hd, List.head_cons] at h
  exact h

end MindUniverse
